import Mathlib

/-!
Verification of `kedro/io/hdf_s3.py` (`HDFS3DataSet`): a dataset adapter
that loads and saves pandas DataFrames as HDF5 file images stored in an
S3 bucket, addressed by a versioned path and an HDF group key.

Shallow embedding conventions:
* Python dicts with string keys are association lists (`Dict`).
* A pandas `DataFrame` is modelled by its column names, index labels and
  cell values.
* An in-memory HDF5 file image (`pd.HDFStore` with the `H5FD_CORE` driver
  and `driver_core_backing_store=0`) is an association list from
  normalized keys (always starting with `/`) to frames.
* The remote object store (`s3fs.S3FileSystem`) is an association list
  from paths to stored objects; a stored object is either a well-formed
  HDF5 image or bytes that the table library rejects on open.
* Fallible operations return `Except DataSetError`.
-/

namespace HDFS3

/-- Python dict with string keys and values, as an association list. -/
abbrev Dict := List (String × String)

/-- Model of Python `s.startswith(pre)`, on the character lists (the
built-in `String.startsWith` does not reduce in the kernel). -/
def strStartsWith (s pre : String) : Bool :=
  List.isPrefixOf pre.data s.data

/-- Model of Python slicing `s[n:]`: drop the first `n` characters. -/
def strDrop (s : String) (n : Nat) : String :=
  ⟨s.data.drop n⟩

/-- pandas DataFrame: column names, index labels, and rows of cell values. -/
structure DataFrame where
  columns : List String
  index : List Int
  values : List (List Int)
deriving DecidableEq, Repr

/-- Key normalization performed by pandas `HDFStore`: stored keys always
start with the path separator `/`; `put` and item access prepend it when
the user-supplied key lacks it. -/
def normKey (k : String) : String :=
  if strStartsWith k "/" then k else "/" ++ k

/-- In-memory HDF5 file image: association list from normalized group keys
to the frames stored under them. -/
abbrev HDFImage := List (String × DataFrame)

/-- Model of `store.keys()`: the (normalized) keys present in the image. -/
def HDFImage.keys (img : HDFImage) : List String := img.map Prod.fst

/-- Model of `store[key]`: item access, normalizing the key like pandas
does. -/
def HDFImage.get (img : HDFImage) (k : String) : Option DataFrame :=
  List.lookup (normKey k) img

/-- Model of `store.put(key, data, format="table")`: stores `data` under
the normalized key, replacing any previous entry for that key. -/
def HDFImage.put (img : HDFImage) (k : String) (df : DataFrame) : HDFImage :=
  (normKey k, df) :: img.filter (fun kv => kv.1 ≠ normKey k)

/-- Contents of a remote object: either a well-formed HDF5 file image, or
arbitrary bytes that the table-file library rejects when opening. -/
inductive S3Object where
  | image (img : HDFImage)
  | corrupt (raw : List Nat)
deriving DecidableEq, Repr

/-- Opening an object's bytes as a read-mode in-memory store: succeeds
exactly on well-formed images. -/
def decodeImage : S3Object → Option HDFImage
  | S3Object.image img => some img
  | S3Object.corrupt _ => none

/-- State of the remote object store: association list path ↦ object. -/
abbrev S3State := List (String × S3Object)

/-- Error taxonomy of the collaborators, surfaced unmodified by the
adapter (spec section 7): version-resolution failure from the versioning
helper, missing-object failure from the storage client, and format /
missing-key failures from the table-file library. -/
inductive DataSetError where
  | versionNotFound
  | fileNotFound (path : String)
  | formatError
  | keyNotFound (key : String)
deriving DecidableEq, Repr

/-- Model of `kedro.io.core.Version`: optional load and save version
identifiers. -/
structure Version where
  load : Option String
  save : Option String
deriving DecidableEq, Repr

/-- The storage client built at construction time, holding the deep-copied
credentials (as `client_kwargs`) and the remaining `S3FileSystem` options. -/
structure S3Client where
  client_kwargs : Dict
  s3fs_args : Dict
deriving DecidableEq, Repr

/-- The dataset descriptor stored by `HDFS3DataSet.__init__`: normalized
filepath, group key, merged load/save option mappings, version selector,
and the constructed storage client. -/
structure HDFS3DataSet where
  filepath : String
  key : String
  load_args : Dict
  save_args : Dict
  version : Option Version
  s3 : S3Client
deriving DecidableEq, Repr

/-- Source constant `HDFS3DataSet.DEFAULT_LOAD_ARGS`, the empty dict. -/
def DEFAULT_LOAD_ARGS : Dict := []

/-- Source constant `HDFS3DataSet.DEFAULT_SAVE_ARGS`, the empty dict. -/
def DEFAULT_SAVE_ARGS : Dict := []

/-- Python `base.update(upd)` on dicts (applied to a copy of `base`):
every key of `base` keeps its position but takes the value from `upd`
when present there; keys of `upd` absent from `base` are appended. -/
def dictUpdate (base upd : Dict) : Dict :=
  base.map (fun kv =>
    match List.lookup kv.1 upd with
    | some v => (kv.1, v)
    | none => kv)
  ++ upd.filter (fun kv => List.lookup kv.1 base = none)

/-- Modelled from the spec: the storage client's protocol-stripping path
normalization (`s3fs.S3FileSystem._strip_protocol`, an external
collaborator, spec section 6): removes a leading `s3://`, `s3a://` or
`s3n://` protocol prefix and leaves other paths unchanged. -/
def stripProtocol (p : String) : String :=
  if strStartsWith p "s3://" then strDrop p 5
  else if strStartsWith p "s3a://" then strDrop p 6
  else if strStartsWith p "s3n://" then strDrop p 6
  else p

/-- Whether a path carries one of the protocol prefixes stripped by the
storage client. -/
def hasProtocol (p : String) : Bool :=
  strStartsWith p "s3://" || strStartsWith p "s3a://" || strStartsWith p "s3n://"

/-- The path normalization of `__init__`:
`path = _s3._strip_protocol(filepath)` followed by
`path = PurePosixPath("{}/{}".format(bucket_name, path) if bucket_name else path)`.
Python truthiness makes an empty bucket name behave like `None`; the
`PurePosixPath` wrapping is a pure type conversion on these
already-normalized POSIX strings. -/
def mkPath (filepath : String) (bucket_name : Option String) : String :=
  let path := stripProtocol filepath
  match bucket_name with
  | some b => if b = "" then path else b ++ "/" ++ path
  | none => path

/-- Translation of `HDFS3DataSet.__init__` from the source: deep-copies
credentials and s3fs options treating `None` as `{}`, builds the storage
client, normalizes the path, and stores the descriptor with the default
load/save option mappings updated by the user-supplied ones. -/
def HDFS3DataSet.construct (filepath key : String) (bucket_name : Option String)
    (credentials : Option Dict) (load_args save_args : Option Dict)
    (version : Option Version) (s3fs_args : Option Dict) : HDFS3DataSet :=
  let _credentials := credentials.getD []
  let _s3fs_args := s3fs_args.getD []
  let _s3 : S3Client := ⟨_credentials, _s3fs_args⟩
  let path := mkPath filepath bucket_name
  let _load_args :=
    match load_args with
    | some la => dictUpdate DEFAULT_LOAD_ARGS la
    | none => DEFAULT_LOAD_ARGS
  let _save_args :=
    match save_args with
    | some sa => dictUpdate DEFAULT_SAVE_ARGS sa
    | none => DEFAULT_SAVE_ARGS
  ⟨path, key, _load_args, _save_args, version, _s3⟩

/-- Modelled from the spec: the versioning helper
(`kedro.io.core.AbstractVersionedDataSet`, not under `src/`) maps the
logical path and a concrete version identifier to a concrete remote
path. -/
def versionedPath (filepath v : String) : String := filepath ++ "/" ++ v

/-- The version identifier carried by a remote path under `filepath`,
if any — inverse of `versionedPath`, used for listing existing versions. -/
def versionOf (filepath p : String) : Option String :=
  if strStartsWith p (filepath ++ "/") then
    some (strDrop p (filepath.length + 1))
  else none

/-- Modelled from the spec: the most recent existing version for the
dataset's logical path, computed by the versioning helper from the
storage client's listing callback (version identifiers sort so that the
maximum is the latest). -/
def latestVersion (st : S3State) (filepath : String) : Option String :=
  (st.filterMap (fun po => versionOf filepath po.1)).foldl
    (fun acc v =>
      match acc with
      | none => some v
      | some a => some (max a v))
    none

/-- Modelled from the spec: `_get_load_path` of the versioning helper —
no version selector means the plain path; a pinned load version is used
directly; otherwise the most recent existing version, raising a
"no version found" condition when none exists. -/
def HDFS3DataSet.getLoadPath (ds : HDFS3DataSet) (st : S3State) :
    Except DataSetError String :=
  match ds.version with
  | none => Except.ok ds.filepath
  | some ver =>
    match ver.load with
    | some v => Except.ok (versionedPath ds.filepath v)
    | none =>
      match latestVersion st ds.filepath with
      | some v => Except.ok (versionedPath ds.filepath v)
      | none => Except.error DataSetError.versionNotFound

/-- Modelled from the spec: `_get_save_path` of the versioning helper —
no version selector means the plain path; a pinned save version is used
directly; otherwise a freshly generated identifier `now`. -/
def HDFS3DataSet.getSavePath (ds : HDFS3DataSet) (now : String) : String :=
  match ds.version with
  | none => ds.filepath
  | some ver => versionedPath ds.filepath (ver.save.getD now)

/-- Values occurring in the dict returned by `_describe`: strings,
option mappings, or the version selector. -/
inductive DescValue where
  | str (s : String)
  | dict (d : Dict)
  | ver (v : Option Version)
deriving DecidableEq, Repr

/-- Translation of `HDFS3DataSet._describe` from the source: the dict
literal with its five entries in source order. -/
def HDFS3DataSet._describe (ds : HDFS3DataSet) : List (String × DescValue) :=
  [("filepath", DescValue.str ds.filepath),
   ("key", DescValue.str ds.key),
   ("load_args", DescValue.dict ds.load_args),
   ("save_args", DescValue.dict ds.save_args),
   ("version", DescValue.ver ds.version)]

/-- Translation of `HDFS3DataSet._load` from the source: resolve the load
path, read the object's bytes (`s3.open(..., "rb").read()`), open them as
a read-mode in-memory store, and return `store[self._key]`. Every failure
of a collaborator is propagated unmodified. -/
def HDFS3DataSet._load (ds : HDFS3DataSet) (st : S3State) :
    Except DataSetError DataFrame :=
  match ds.getLoadPath st with
  | Except.error e => Except.error e
  | Except.ok load_path =>
    match List.lookup load_path st with
    | none => Except.error (DataSetError.fileNotFound load_path)
    | some obj =>
      match decodeImage obj with
      | none => Except.error DataSetError.formatError
      | some store =>
        match HDFImage.get store ds.key with
        | none => Except.error (DataSetError.keyNotFound ds.key)
        | some df => Except.ok df

/-- Translation of `HDFS3DataSet._save` from the source: resolve the save
path, open a fresh in-memory store in `"w"` mode, `put` the data under the
key in table format, extract the complete binary image, and write it to
the remote path (overwriting the object stored there, if any). -/
def HDFS3DataSet._save (ds : HDFS3DataSet) (data : DataFrame) (now : String)
    (st : S3State) : S3State :=
  let save_path := ds.getSavePath now
  let store : HDFImage := []
  let store := HDFImage.put store ds.key data
  let binary_data := store
  (save_path, S3Object.image binary_data) :: st.filter (fun po => po.1 ≠ save_path)

/-- Translation of `HDFS3DataSet._exists` from the source: resolve the load
path; if no remote object is there (`s3.isfile` false), return `false`;
otherwise read the bytes, open them as a read-mode store, and report
whether the key, normalized to start with `/`, is among the store's
keys. -/
def HDFS3DataSet._exists (ds : HDFS3DataSet) (st : S3State) :
    Except DataSetError Bool :=
  match ds.getLoadPath st with
  | Except.error e => Except.error e
  | Except.ok load_path =>
    match List.lookup load_path st with
    | none => Except.ok false
    | some obj =>
      match decodeImage obj with
      | none => Except.error DataSetError.formatError
      | some store =>
        let key_with_slash :=
          if strStartsWith ds.key "/" then ds.key else "/" ++ ds.key
        Except.ok ((HDFImage.keys store).contains key_with_slash)

/-- State-passing translation of a `_describe` call: the method body
reads fields and builds a fresh dict, never assigning to `self`, so the
post-call object state is the input descriptor. -/
def HDFS3DataSet.describeOp (ds : HDFS3DataSet) :
    List (String × DescValue) × HDFS3DataSet :=
  (ds._describe, ds)

/-- State-passing translation of a `_load` call: the body binds only
locals (`load_path`, `binary_data`, `store`), so the post-call object
state is the input descriptor. -/
def HDFS3DataSet.loadOp (ds : HDFS3DataSet) (st : S3State) :
    Except DataSetError DataFrame × HDFS3DataSet :=
  (ds._load st, ds)

/-- State-passing translation of a `_save` call: the body binds only
locals and writes to the remote store, so the post-call object state is
the input descriptor (alongside the updated remote state). -/
def HDFS3DataSet.saveOp (ds : HDFS3DataSet) (data : DataFrame) (now : String)
    (st : S3State) : S3State × HDFS3DataSet :=
  (ds._save data now st, ds)

/-- State-passing translation of an `_exists` call: the body binds only
locals, so the post-call object state is the input descriptor. -/
def HDFS3DataSet.existsOp (ds : HDFS3DataSet) (st : S3State) :
    Except DataSetError Bool × HDFS3DataSet :=
  (ds._exists st, ds)

/-- A Python heap fragment holding the caller's dict objects, addressed
by cell index; used to state the aliasing behaviour of the constructor. -/
abbrev Heap := List Dict

/-- Read a heap cell. -/
def Heap.get (h : Heap) (r : Nat) : Dict := (h.get? r).getD []

/-- Overwrite a heap cell — a caller-side mutation of its dict. -/
def Heap.set (h : Heap) (r : Nat) (d : Dict) : Heap := List.set h r d

/-- Heap-passing translation of `__init__`'s treatment of the caller's
`credentials` and `s3fs_args` dicts: `copy.deepcopy(...) or {}` snapshots
the dict values into fresh cells without writing to any existing cell, so
the constructor consumes the snapshot values and returns the caller's
heap unchanged. -/
def constructH (h : Heap) (filepath key : String) (bucket_name : Option String)
    (credRef : Option Nat) (load_args save_args : Option Dict)
    (version : Option Version) (s3aRef : Option Nat) : HDFS3DataSet × Heap :=
  (HDFS3DataSet.construct filepath key bucket_name (credRef.map h.get)
    load_args save_args version (s3aRef.map h.get), h)

/-! Sample data used by the concrete witnesses. -/

/-- Sample frame, following the docstring example: three columns, two
rows. -/
def df0 : DataFrame :=
  ⟨["col1", "col2", "col3"], [0, 1], [[1, 4, 5], [2, 5, 6]]⟩

/-- Sample unversioned dataset of the docstring example. -/
def ds1 : HDFS3DataSet :=
  HDFS3DataSet.construct "test.hdf" "test_hdf_key" (some "test_bucket")
    none none none none none

/-- Sample dataset pinning both load and save versions to `v1`. -/
def ds2 : HDFS3DataSet :=
  HDFS3DataSet.construct "test.hdf" "test_hdf_key" (some "test_bucket")
    none none none (some ⟨some "v1", some "v1"⟩) none

/-- Sample dataset with an unpinned version selector. -/
def ds3 : HDFS3DataSet :=
  HDFS3DataSet.construct "test.hdf" "test_hdf_key" (some "test_bucket")
    none none none (some ⟨none, none⟩) none

/-- Updating the empty dict with `u` gives back `u`. -/
theorem dictUpdate_nil (u : Dict) : dictUpdate [] u = u := by
  simp [dictUpdate]

/-- C4: for a filepath carrying a protocol prefix and a non-empty bucket
name, the constructor stores the normalized path `"<bucket>/<stripped>"`;
with no bucket name it stores just the stripped filepath. -/
theorem construct_normalizes_path (filepath key b : String)
    (credentials load_args save_args s3fs_args : Option Dict)
    (version : Option Version)
    (_hp : hasProtocol filepath = true) (hb : b ≠ "") :
    (HDFS3DataSet.construct filepath key (some b) credentials load_args
        save_args version s3fs_args).filepath
      = b ++ "/" ++ stripProtocol filepath
    ∧ (HDFS3DataSet.construct filepath key none credentials load_args
        save_args version s3fs_args).filepath
      = stripProtocol filepath := by
  constructor
  · simp [HDFS3DataSet.construct, mkPath, hb]
  · rfl

/-- Witness for C4 at the concrete input `s3://data/test.hdf`, bucket
`bkt`. -/
theorem construct_normalizes_path_witness :
    hasProtocol "s3://data/test.hdf" = true
    ∧ (HDFS3DataSet.construct "s3://data/test.hdf" "k" (some "bkt")
        none none none none none).filepath = "bkt/data/test.hdf" := by
  refine ⟨by decide, ?_⟩
  have h := (construct_normalizes_path "s3://data/test.hdf" "k" "bkt"
    none none none none none (by decide) (by decide)).1
  rw [h]
  decide

/-- C5: the mapping returned by `_describe` has exactly the five
documented fields, in source order; no credentials or client-option field
appears; and the call leaves the dataset state unchanged. -/
theorem describe_fields (ds : HDFS3DataSet) :
    (HDFS3DataSet._describe ds).map Prod.fst
      = ["filepath", "key", "load_args", "save_args", "version"]
    ∧ "credentials" ∉ (HDFS3DataSet._describe ds).map Prod.fst
    ∧ "s3fs_args" ∉ (HDFS3DataSet._describe ds).map Prod.fst
    ∧ HDFS3DataSet.describeOp ds = (HDFS3DataSet._describe ds, ds) := by
  refine ⟨rfl, ?_, ?_, rfl⟩
  · show "credentials" ∉ ["filepath", "key", "load_args", "save_args", "version"]
    decide
  · show "s3fs_args" ∉ ["filepath", "key", "load_args", "save_args", "version"]
    decide

/-- C6: the constructor stores the defaults updated with the user
mapping — user keys take the user's value, default keys absent from the
user mapping keep their default, and a `None` user mapping yields exactly
the defaults. -/
theorem construct_merges_args (filepath key : String)
    (bucket_name : Option String) (credentials s3fs_args : Option Dict)
    (version : Option Version) (la sa : Dict) :
    (HDFS3DataSet.construct filepath key bucket_name credentials
        (some la) (some sa) version s3fs_args).load_args
      = dictUpdate DEFAULT_LOAD_ARGS la
    ∧ (HDFS3DataSet.construct filepath key bucket_name credentials
        (some la) (some sa) version s3fs_args).save_args
      = dictUpdate DEFAULT_SAVE_ARGS sa
    ∧ (∀ k v, List.lookup k la = some v →
        List.lookup k (HDFS3DataSet.construct filepath key bucket_name
          credentials (some la) (some sa) version s3fs_args).load_args
          = some v)
    ∧ (∀ k v, List.lookup k sa = some v →
        List.lookup k (HDFS3DataSet.construct filepath key bucket_name
          credentials (some la) (some sa) version s3fs_args).save_args
          = some v)
    ∧ (∀ k v, List.lookup k la = none →
        List.lookup k DEFAULT_LOAD_ARGS = some v →
        List.lookup k (HDFS3DataSet.construct filepath key bucket_name
          credentials (some la) (some sa) version s3fs_args).load_args
          = some v)
    ∧ (HDFS3DataSet.construct filepath key bucket_name credentials
        none none version s3fs_args).load_args = DEFAULT_LOAD_ARGS
    ∧ (HDFS3DataSet.construct filepath key bucket_name credentials
        none none version s3fs_args).save_args = DEFAULT_SAVE_ARGS := by
  refine ⟨rfl, rfl, ?_, ?_, ?_, rfl, rfl⟩
  · intro k v h
    show List.lookup k (dictUpdate DEFAULT_LOAD_ARGS la) = some v
    rw [show (DEFAULT_LOAD_ARGS : Dict) = [] from rfl, dictUpdate_nil]
    exact h
  · intro k v h
    show List.lookup k (dictUpdate DEFAULT_SAVE_ARGS sa) = some v
    rw [show (DEFAULT_SAVE_ARGS : Dict) = [] from rfl, dictUpdate_nil]
    exact h
  · intro k v _ h
    simp [DEFAULT_LOAD_ARGS] at h

/-- Witness for C6 at a concrete user mapping. -/
theorem construct_merges_args_witness :
    List.lookup "mode" (HDFS3DataSet.construct "test.hdf" "k" none none
      (some [("mode", "table")]) (some [("complevel", "9")]) none
      none).load_args = some "table" :=
  (construct_merges_args "test.hdf" "k" none none none none
    [("mode", "table")] [("complevel", "9")]).2.2.1 "mode" "table" (by decide)

/-- C8: `save` always opens the in-memory store in `"w"` mode, so for
every input and every prior remote content the image written to the
resolved save path holds the configured key only; previously stored
sibling keys in the same remote object are not preserved. -/
theorem save_overwrites (ds : HDFS3DataSet) (data : DataFrame)
    (now : String) (st : S3State) :
    List.lookup (HDFS3DataSet.getSavePath ds now)
        (HDFS3DataSet._save ds data now st)
      = some (S3Object.image (HDFImage.put [] ds.key data))
    ∧ HDFImage.keys (HDFImage.put [] ds.key data) = [normKey ds.key] := by
  constructor
  · simp [HDFS3DataSet._save, List.lookup]
  · rfl

/-- C9: every public operation leaves the stored descriptor — filepath,
key, load options, save options, version selector — unchanged; the only
state surviving a call is the descriptor itself. -/
theorem ops_preserve_descriptor (ds : HDFS3DataSet) (st : S3State)
    (data : DataFrame) (now : String) :
    (HDFS3DataSet.describeOp ds).2 = ds
    ∧ (HDFS3DataSet.loadOp ds st).2 = ds
    ∧ (HDFS3DataSet.saveOp ds data now st).2 = ds
    ∧ (HDFS3DataSet.existsOp ds st).2 = ds :=
  ⟨rfl, rfl, rfl, rfl⟩

/-- C10: the constructor returns the caller's heap unchanged (it never
mutates the caller's `credentials`/`s3fs_args` dicts); the dataset it
builds depends only on the snapshot values of the referenced cells at
construction time (deep copy, so later caller-side mutation cannot reach
it); and `None` arguments behave as empty mappings. -/
theorem construct_deepcopies_args (h : Heap) (filepath key : String)
    (bucket_name : Option String) (rc rs : Nat)
    (load_args save_args : Option Dict) (version : Option Version) :
    (constructH h filepath key bucket_name (some rc) load_args save_args
        version (some rs)).2 = h
    ∧ (constructH h filepath key bucket_name (some rc) load_args save_args
        version (some rs)).1
      = HDFS3DataSet.construct filepath key bucket_name
          (some (Heap.get h rc)) load_args save_args version
          (some (Heap.get h rs))
    ∧ (constructH h filepath key bucket_name (some rc) load_args save_args
        version (some rs)).1.s3
      = ⟨Heap.get h rc, Heap.get h rs⟩
    ∧ (constructH h filepath key bucket_name none load_args save_args
        version none).2 = h
    ∧ (constructH h filepath key bucket_name none load_args save_args
        version none).1.s3 = ⟨[], []⟩ :=
  ⟨rfl, rfl, rfl, rfl, rfl⟩

/-- C1: for every tabular input `T` and every prior remote state, saving
`T` and then loading — when the version selector resolves the load path
to the just-written save path, as it does for the default unversioned
selector and for a pinned version — returns data equal to `T`, with
columns, values and index preserved. -/
theorem save_load_roundtrip (ds : HDFS3DataSet) (data : DataFrame)
    (now : String) (st : S3State)
    (hsame : HDFS3DataSet.getLoadPath ds (HDFS3DataSet._save ds data now st)
      = Except.ok (HDFS3DataSet.getSavePath ds now)) :
    HDFS3DataSet._load ds (HDFS3DataSet._save ds data now st)
      = Except.ok data := by
  unfold HDFS3DataSet._load
  rw [hsame]
  simp [HDFS3DataSet._save, List.lookup, decodeImage, HDFImage.get,
    HDFImage.put]

/-- Witness for C1: the docstring example round-trips. -/
theorem save_load_roundtrip_witness :
    HDFS3DataSet._load ds1 (HDFS3DataSet._save ds1 df0 "t0" [])
      = Except.ok df0 :=
  save_load_roundtrip ds1 df0 "t0" [] rfl

/-- C2: with the load path resolved to `p`, `exists()` returns `false`
when no remote object is at `p`; otherwise, for an object holding a
well-formed image, it returns exactly whether the configured key —
normalized by prepending `/` exactly when it does not already start with
`/` — appears among the store's keys. -/
theorem exists_resolves_key_membership (ds : HDFS3DataSet) (st : S3State)
    (p : String) (hp : HDFS3DataSet.getLoadPath ds st = Except.ok p) :
    (List.lookup p st = none → HDFS3DataSet._exists ds st = Except.ok false)
    ∧ (∀ img, List.lookup p st = some (S3Object.image img) →
        HDFS3DataSet._exists ds st
          = Except.ok ((HDFImage.keys img).contains
              (if strStartsWith ds.key "/" then ds.key else "/" ++ ds.key)))
    ∧ (if strStartsWith ds.key "/" then ds.key else "/" ++ ds.key)
        = normKey ds.key := by
  refine ⟨?_, ?_, rfl⟩
  · intro h
    unfold HDFS3DataSet._exists
    simp only [hp, h]
  · intro img h
    unfold HDFS3DataSet._exists
    simp only [hp, h, decodeImage]

/-- Witness for C2: missing remote object gives `false`; an image holding
the normalized key gives `true`. -/
theorem exists_resolves_key_membership_witness :
    HDFS3DataSet._exists ds1 [] = Except.ok false
    ∧ HDFS3DataSet._exists ds1
        [("test_bucket/test.hdf", S3Object.image [("/test_hdf_key", df0)])]
      = Except.ok true := by
  constructor
  · exact (exists_resolves_key_membership ds1 [] "test_bucket/test.hdf"
      rfl).1 rfl
  · have h := (exists_resolves_key_membership ds1
      [("test_bucket/test.hdf", S3Object.image [("/test_hdf_key", df0)])]
      "test_bucket/test.hdf" rfl).2.1 [("/test_hdf_key", df0)] (by decide)
    rw [h]
    exact congrArg Except.ok (by decide)

/-- C3: with the load path resolved to `p` and no remote object there
(no save has been performed for that version), `exists()` returns
`false`; immediately after a save for that version (the selector
resolving the load path to the save path just written), it returns
`true`. -/
theorem exists_false_before_true_after_save (ds : HDFS3DataSet)
    (data : DataFrame) (now : String) (st : S3State) (p : String)
    (hp : HDFS3DataSet.getLoadPath ds st = Except.ok p)
    (hnone : List.lookup p st = none)
    (hafter : HDFS3DataSet.getLoadPath ds (HDFS3DataSet._save ds data now st)
      = Except.ok (HDFS3DataSet.getSavePath ds now)) :
    HDFS3DataSet._exists ds st = Except.ok false
    ∧ HDFS3DataSet._exists ds (HDFS3DataSet._save ds data now st)
      = Except.ok true := by
  constructor
  · unfold HDFS3DataSet._exists
    simp only [hp, hnone]
  · unfold HDFS3DataSet._exists
    rw [hafter]
    simp [HDFS3DataSet._save, List.lookup, decodeImage, HDFImage.put,
      HDFImage.keys, normKey, List.contains]

/-- Witness for C3: the pinned-version dataset, empty remote state. -/
theorem exists_false_before_true_after_save_witness :
    HDFS3DataSet._exists ds2 [] = Except.ok false
    ∧ HDFS3DataSet._exists ds2 (HDFS3DataSet._save ds2 df0 "t0" [])
      = Except.ok true :=
  exists_false_before_true_after_save ds2 df0 "t0" []
    (versionedPath ds2.filepath "v1") rfl rfl rfl

/-- C7: `load` fails with the versioning helper's "not found" condition
when no version exists; with the table library's format error when the
remote bytes are not a valid image; with the table library's missing-key
error when the key is absent from the store; and it propagates the
storage client's missing-object error and any version-resolution error
unmodified — no retries, recovery, or suppression. -/
theorem load_error_passthrough (ds : HDFS3DataSet) (st : S3State) :
    (∀ ver, ds.version = some ver → ver.load = none →
      latestVersion st ds.filepath = none →
      HDFS3DataSet._load ds st = Except.error DataSetError.versionNotFound)
    ∧ (∀ p, HDFS3DataSet.getLoadPath ds st = Except.ok p →
        List.lookup p st = none →
        HDFS3DataSet._load ds st
          = Except.error (DataSetError.fileNotFound p))
    ∧ (∀ p raw, HDFS3DataSet.getLoadPath ds st = Except.ok p →
        List.lookup p st = some (S3Object.corrupt raw) →
        HDFS3DataSet._load ds st = Except.error DataSetError.formatError)
    ∧ (∀ p img, HDFS3DataSet.getLoadPath ds st = Except.ok p →
        List.lookup p st = some (S3Object.image img) →
        HDFImage.get img ds.key = none →
        HDFS3DataSet._load ds st
          = Except.error (DataSetError.keyNotFound ds.key))
    ∧ (∀ e, HDFS3DataSet.getLoadPath ds st = Except.error e →
        HDFS3DataSet._load ds st = Except.error e) := by
  refine ⟨?_, ?_, ?_, ?_, ?_⟩
  · intro ver hver hload hlatest
    unfold HDFS3DataSet._load
    have hres : HDFS3DataSet.getLoadPath ds st
        = Except.error DataSetError.versionNotFound := by
      unfold HDFS3DataSet.getLoadPath
      simp only [hver]
      simp only [hload]
      simp only [hlatest]
    simp only [hres]
  · intro p hp hnone
    unfold HDFS3DataSet._load
    simp only [hp, hnone]
  · intro p raw hp hobj
    unfold HDFS3DataSet._load
    simp only [hp, hobj, decodeImage]
  · intro p img hp hobj hkey
    unfold HDFS3DataSet._load
    simp only [hp, hobj, decodeImage, hkey]
  · intro e he
    unfold HDFS3DataSet._load
    simp only [he]

/-- Witness for C7: the unpinned-version dataset over an empty remote
state has no version to load. -/
theorem load_error_passthrough_witness :
    HDFS3DataSet._load ds3 [] = Except.error DataSetError.versionNotFound :=
  (load_error_passthrough ds3 []).1 ⟨none, none⟩ rfl rfl rfl

end HDFS3
